import Mathlib

/-!
Verification development for the disk-mpmc repository (source files
src/src/datapage.rs, src/src/manager.rs, src/src/lib.rs).

The repository is embedded shallowly:
* machine integers are Nat with explicit reduction modulo 2^32 / 2^64 at the
  points where the Rust code wraps (release semantics of integer overflow);
* the fixed arrays of a data page are functions Nat -> Nat, with every bounds
  check of the source made explicit (an out-of-bounds access yields a `panic`
  result, as Rust index panics do);
* each fallible operation returns an explicit result type that also records the
  state it leaves behind and the futex cells it woke.

lib.rs carries an older self-contained copy of the data page, the manager and
the receiver handles; datapage.rs and manager.rs carry the newer module
versions.  Both are embedded where a claim cites them.
-/

/-- 2^32, the modulus of u32 arithmetic. -/
def U32 : Nat := 4294967296

/-- 2^64, the modulus of u64 / usize arithmetic. -/
def U64 : Nat := 18446744073709551616

/-- u32::MAX. -/
def U32MAX : Nat := U32 - 1

/-- usize::MAX (64-bit platform). -/
def USIZE_MAX : Nat := U64 - 1

/-- datapage.rs / lib.rs: MAX_MESSAGES_PER_PAGE = 2^16 - 1 = 65535.  This is
both the number of slot cells of a page and the entry bound for readers. -/
def MAX_MESSAGES_PER_PAGE : Nat := 2 ^ 16 - 1

/-- datapage.rs: EXPECTED_MESSAGE_SIZE_BYTES = 2048 (default build, the
FRANZ_BUILD_EMSG_SIZE environment override unset). -/
def EXPECTED_MESSAGE_SIZE_BYTES : Nat := 2048

/-- datapage.rs: MAX_BYTES_PER_PAGE = MAX_MESSAGES_PER_PAGE * EXPECTED_MESSAGE_SIZE_BYTES. -/
def MAX_BYTES_PER_PAGE : Nat := MAX_MESSAGES_PER_PAGE * EXPECTED_MESSAGE_SIZE_BYTES

/-- lib.rs: EXPECTED_MESSAGE_SIZE_BYTES = 4096. -/
def EXPECTED_MESSAGE_SIZE_BYTES_LIB : Nat := 4096

/-- lib.rs: MAX_BYTES_PER_PAGE. -/
def MAX_BYTES_PER_PAGE_LIB : Nat := MAX_MESSAGES_PER_PAGE * EXPECTED_MESSAGE_SIZE_BYTES_LIB

/-- Both files: MAX_RECEIVER_GROUPS = 64. -/
def MAX_RECEIVER_GROUPS : Nat := 64

/-- Both files: IDX_SALT = 1. -/
def IDX_SALT : Nat := 1

/-- manager.rs: MAX_PAGES = 3 in lib.rs (fixed ring size of the old manager). -/
def MAX_PAGES_LIB : Nat := 3

/-- Pointwise update of a function-modelled array cell. -/
def upd (f : Nat → Nat) (i v : Nat) : Nat → Nat := fun j => if j = i then v else f j

/-- copy_from_slice: write the bytes of `l` into `f` starting at offset `s`. -/
def writeBytes (f : Nat → Nat) (s : Nat) : List Nat → (Nat → Nat)
  | [] => f
  | b :: rest => writeBytes (upd f s b) (s + 1) rest

/-- Read `n` bytes of `f` starting at offset `s`. -/
def readBytes (f : Nat → Nat) (s : Nat) : Nat → List Nat
  | 0 => []
  | n + 1 => f s :: readBytes f (s + 1) n

/-- u32::to_le_bytes. -/
def toLE4 (n : Nat) : List Nat :=
  [n % 256, n / 256 % 256, n / 65536 % 256, n / 16777216 % 256]

/-- u32::from_le_bytes on a 4-byte slice. -/
def fromLE4 : List Nat → Nat
  | [a, b, c, d] => a + 256 * b + 65536 * c + 16777216 * d
  | _ => 0

/-- The state of one mapped data page (both datapage.rs and lib.rs use the same
layout): the packed 64-bit count/write_idx cell, the 64 receiver group
counters, the 65535 slot cells (idx_map_with_salt), and the byte buffer. -/
structure DataPage where
  cwi : Nat
  groups : Nat → Nat
  idxMap : Nat → Nat
  buf : Nat → Nat

/-- A data page as the zero-filled mapping produces it. -/
def zeroPage : DataPage := ⟨0, fun _ => 0, fun _ => 0, fun _ => 0⟩

/-- datapage.rs CountWriteIdx::fetch_add, state part: one 64-bit wrapping
fetch-add of `(val << 32) + 1` (val a u32) on the packed cell. -/
def cwiStep (s v : Nat) : Nat := (s + ((v % U32) * U32 + 1)) % U64

/-- Decode of the write_idx half: `(x & WRITE_IDX_MASK) >> 32` cast to u32. -/
def wIdxOfCwi (s : Nat) : Nat := s / U32 % U32

/-- Decode of the count half, datapage.rs: `x & COUNT_MASK` cast to u32. -/
def countOfCwi (s : Nat) : Nat := s % U32

/-- lib.rs decode of the count half: `(x & WRITE_IDX_MASK) as u32`, i.e. the
masked 64-bit value truncated to its low 32 bits. -/
def countOfCwiLib (s : Nat) : Nat := (s - s % U32) % U32

/-- lib.rs CountWriteIdx::fetch_add: same packed add, but the count half is
decoded with `countOfCwiLib`.  Returns (new cell, write_idx, count). -/
def fetchAddLib (s v : Nat) : Nat × Nat × Nat :=
  (cwiStep s v, wIdxOfCwi s, countOfCwiLib s)

/-- Result of DataPage::push.  `ok`/`full` carry the page state the call leaves
behind and the list of slot cells it issued a wake on; `panic` is a Rust index
panic (slice access outside `buf`). -/
inductive PushResult
  | ok (p : DataPage) (wakes : List Nat)
  | full (p : DataPage) (wakes : List Nat)
  | panic

/-- datapage.rs DataPage::push.  The reservation is the packed fetch-add; the
checks, stores and wakes follow the source line by line.  `F` is
`data.len() as u32 + 4` (u32 wrapping), which equals `(len(d) + 4) % 2^32`,
also the value of `full_msg_len`. -/
def pushD (p : DataPage) (d : List Nat) : PushResult :=
  let F := (d.length + 4) % U32
  let wi := wIdxOfCwi p.cwi
  let c := countOfCwi p.cwi
  let p1 : DataPage := { p with cwi := cwiStep p.cwi F }
  if MAX_MESSAGES_PER_PAGE ≤ c then
    .full p1 []
  else if MAX_BYTES_PER_PAGE ≤ (wi + F) % U32 then
    .full { p1 with idxMap := upd p1.idxMap c U32MAX } [c]
  else if wi + 4 + d.length ≤ MAX_BYTES_PER_PAGE then
    .ok { p1 with
          buf := writeBytes (writeBytes p.buf wi (toLE4 (d.length % U32))) (wi + 4) d,
          idxMap := upd p1.idxMap c ((wi + IDX_SALT) % U32) } [c]
  else
    .panic

/-- Outcome of the shared tail of the read operations, after a non-zero slot
cell value `v` was loaded. -/
inductive SlotRead
  | bytes (b : List Nat)
  | term (p : DataPage) (wakes : List Nat)
  | panic

/-- Shared tail of get / try_get / get_with_timeout (parameterised by the
byte bound `B` so that it serves both datapage.rs and lib.rs): terminator
propagation with `saturating_add(1)` and the unguarded slot-table store, then
salt removal with `saturating_sub(IDX_SALT)` and the two buffer slices. -/
def readSlot (B : Nat) (p : DataPage) (c v : Nat) : SlotRead :=
  if B ≤ v then
    let next := min (c + 1) U32MAX
    if MAX_MESSAGES_PER_PAGE ≤ next then
      .panic
    else
      .term { p with idxMap := upd p.idxMap next U32MAX } [next]
  else
    let idx := v - IDX_SALT
    if idx + 4 ≤ B then
      let len := fromLE4 (readBytes p.buf idx 4)
      if idx + 4 + len ≤ B then .bytes (readBytes p.buf (idx + 4) len)
      else .panic
    else
      .panic

/-- Result of DataPage::get.  The blocking wait on a slot cell that stays 0
never returns in a sequential model, hence `blocked`. -/
inductive GetResult
  | msg (b : List Nat)
  | endOfPage (p : DataPage) (wakes : List Nat)
  | blocked
  | panic

/-- Result of DataPage::try_get; `empty` is Ok(None). -/
inductive TryGetResult
  | got (b : List Nat)
  | empty
  | endOfPage (p : DataPage) (wakes : List Nat)
  | panic

/-- DataPage::get (entry guard, futex wait loop, terminator cascade, payload
read), parameterised by the byte bound. -/
def getCore (B : Nat) (p : DataPage) (c : Nat) : GetResult :=
  if MAX_MESSAGES_PER_PAGE ≤ c then .endOfPage p []
  else if p.idxMap c = 0 then .blocked
  else
    match readSlot B p c (p.idxMap c) with
    | .bytes b => .msg b
    | .term q w => .endOfPage q w
    | .panic => .panic

/-- DataPage::try_get, parameterised by the byte bound. -/
def tryGetCore (B : Nat) (p : DataPage) (c : Nat) : TryGetResult :=
  if MAX_MESSAGES_PER_PAGE ≤ c then .endOfPage p []
  else if p.idxMap c = 0 then .empty
  else
    match readSlot B p c (p.idxMap c) with
    | .bytes b => .got b
    | .term q w => .endOfPage q w
    | .panic => .panic

/-- datapage.rs DataPage::get. -/
def getD (p : DataPage) (c : Nat) : GetResult := getCore MAX_BYTES_PER_PAGE p c

/-- datapage.rs DataPage::try_get.  DataPage::get_with_timeout has the same
sequential semantics as try_get (its timed wait adds nothing to a state that
does not change). -/
def tryGetD (p : DataPage) (c : Nat) : TryGetResult := tryGetCore MAX_BYTES_PER_PAGE p c

/-- lib.rs DataPage::get (same structure, lib.rs byte bound). -/
def getL (p : DataPage) (c : Nat) : GetResult := getCore MAX_BYTES_PER_PAGE_LIB p c

/-- datapage.rs DataPage::increment_group_count: unchecked index into the
64-entry group counter array, wrapping u32 fetch-add, prior value returned.
`none` is the Rust index panic for `group >= 64`. -/
def incrementGroupCount (p : DataPage) (group v : Nat) : Option (DataPage × Nat) :=
  if group < MAX_RECEIVER_GROUPS then
    some ({ p with groups := upd p.groups group ((p.groups group + v) % U32) },
          p.groups group)
  else
    none

theorem upd_same (f : Nat → Nat) (i v : Nat) : upd f i v i = v := by
  simp [upd]

theorem upd_ne (f : Nat → Nat) (i v j : Nat) (h : j ≠ i) : upd f i v j = f j := by
  simp [upd, h]

theorem writeBytes_lt (l : List Nat) (f : Nat → Nat) (s i : Nat) (h : i < s) :
    writeBytes f s l i = f i := by
  induction l generalizing f s with
  | nil => rfl
  | cons b rest ih =>
    rw [writeBytes, ih _ _ (by omega), upd_ne _ _ _ _ (by omega)]

theorem writeBytes_ge (l : List Nat) (f : Nat → Nat) (s i : Nat) (h : s + l.length ≤ i) :
    writeBytes f s l i = f i := by
  induction l generalizing f s with
  | nil => rfl
  | cons b rest ih =>
    have hlen : (b :: rest).length = rest.length + 1 := by simp
    rw [writeBytes, ih _ _ (by omega), upd_ne _ _ _ _ (by omega)]

theorem readBytes_congr (f g : Nat → Nat) (s n : Nat)
    (h : ∀ i, s ≤ i → i < s + n → f i = g i) :
    readBytes f s n = readBytes g s n := by
  induction n generalizing s with
  | zero => rfl
  | succ m ih =>
    rw [readBytes, readBytes, h s (by omega) (by omega), ih _ fun i h1 h2 => h i (by omega) (by omega)]

theorem readBytes_writeBytes (l : List Nat) (f : Nat → Nat) (s : Nat) :
    readBytes (writeBytes f s l) s l.length = l := by
  induction l generalizing f s with
  | nil => rfl
  | cons b rest ih =>
    rw [List.length_cons, readBytes, writeBytes]
    rw [writeBytes_lt rest _ _ _ (by omega), upd_same, ih]

theorem fromLE4_toLE4 (n : Nat) : fromLE4 (toLE4 n) = n % U32 := by
  simp only [toLE4, fromLE4, U32]
  omega

/-- The slot a push reservation claims: the count half of the packed cell
before the add. -/
def reservedSlot (p : DataPage) : Nat := countOfCwi p.cwi

/-- C1: payload fidelity.  If `push d` on a data page succeeds, with its
reservation assigning slot `c = reservedSlot p`, then `get c` on the resulting
page returns exactly the bytes of `d`, and `try_get c` returns `Some` of the
same bytes: push wrote the little-endian u32 length prefix at the reserved
offset, the payload after it, and published offset + 1 in the slot cell; the
reader recomputes the offset from the cell value and returns len(d) payload
bytes. -/
theorem push_get_payload_fidelity (p p' : DataPage) (d : List Nat) (w : List Nat)
    (h : pushD p d = PushResult.ok p' w) :
    getD p' (reservedSlot p) = GetResult.msg d ∧
    tryGetD p' (reservedSlot p) = TryGetResult.got d := by
  unfold pushD at h
  set F := (d.length + 4) % U32 with hF
  set wi := wIdxOfCwi p.cwi with hwi
  set c := countOfCwi p.cwi with hc
  by_cases h1 : MAX_MESSAGES_PER_PAGE ≤ c
  · simp [h1] at h
  by_cases h2 : MAX_BYTES_PER_PAGE ≤ (wi + F) % U32
  · simp [h1, h2] at h
  by_cases h3 : wi + 4 + d.length ≤ MAX_BYTES_PER_PAGE
  swap
  · simp [h1, h2, h3] at h
  simp only [h1, h2, h3, if_true, if_false, if_neg, if_pos] at h
  have hp' : p' = { p with
      cwi := cwiStep p.cwi F,
      buf := writeBytes (writeBytes p.buf wi (toLE4 (d.length % U32))) (wi + 4) d,
      idxMap := upd p.idxMap c ((wi + IDX_SALT) % U32) } := by
    cases h with | refl => rfl
  have hBlt : MAX_BYTES_PER_PAGE < U32 := by decide
  have hwilt : wi + IDX_SALT < U32 := by
    simp only [MAX_BYTES_PER_PAGE, MAX_MESSAGES_PER_PAGE, EXPECTED_MESSAGE_SIZE_BYTES] at h3
    simp only [IDX_SALT, U32]
    omega
  have hsalt : (wi + IDX_SALT) % U32 = wi + 1 := by
    rw [Nat.mod_eq_of_lt hwilt]
    simp [IDX_SALT]
  have hcell : p'.idxMap c = wi + 1 := by
    rw [hp']
    simp only [upd_same, hsalt]
  have hlend : d.length < U32 := by
    simp only [MAX_BYTES_PER_PAGE, MAX_MESSAGES_PER_PAGE, EXPECTED_MESSAGE_SIZE_BYTES] at h3
    simp only [U32]; omega
  -- the length prefix read back
  have hbufread : readBytes p'.buf wi 4 = toLE4 (d.length % U32) := by
    rw [hp']
    have : readBytes (writeBytes (writeBytes p.buf wi (toLE4 (d.length % U32))) (wi + 4) d) wi 4 =
        readBytes (writeBytes p.buf wi (toLE4 (d.length % U32))) wi 4 := by
      refine readBytes_congr _ _ _ _ fun i hi1 hi2 => ?_
      exact writeBytes_lt d _ _ _ (by omega)
    rw [this]
    have h4 : (toLE4 (d.length % U32)).length = 4 := by simp [toLE4]
    calc readBytes (writeBytes p.buf wi (toLE4 (d.length % U32))) wi 4
        = readBytes (writeBytes p.buf wi (toLE4 (d.length % U32))) wi
            (toLE4 (d.length % U32)).length := by rw [h4]
      _ = toLE4 (d.length % U32) := readBytes_writeBytes _ _ _
  have hlen : fromLE4 (readBytes p'.buf wi 4) = d.length := by
    rw [hbufread, fromLE4_toLE4, Nat.mod_eq_of_lt hlend, Nat.mod_eq_of_lt hlend]
  have hpayload : readBytes p'.buf (wi + 4) d.length = d := by
    rw [hp']
    exact readBytes_writeBytes d _ _
  have hslot : readSlot MAX_BYTES_PER_PAGE p' c (p'.idxMap c) = SlotRead.bytes d := by
    rw [hcell, readSlot]
    have hterm : ¬ MAX_BYTES_PER_PAGE ≤ wi + 1 := by omega
    rw [if_neg hterm]
    have hidx : wi + 1 - IDX_SALT = wi := by simp [IDX_SALT]
    simp only [hidx]
    rw [if_pos (by omega)]
    rw [hlen]
    rw [if_pos (by omega)]
    rw [hpayload]
  have hcn : ¬ MAX_MESSAGES_PER_PAGE ≤ c := h1
  have hnz : ¬ p'.idxMap c = 0 := by rw [hcell]; omega
  constructor
  · unfold getD getCore reservedSlot
    rw [← hc, if_neg hcn, if_neg hnz, hslot]
  · unfold tryGetD tryGetCore reservedSlot
    rw [← hc, if_neg hcn, if_neg hnz, hslot]

/-- The page that `push [104, 105]` on a fresh page produces. -/
def pushedPage : DataPage :=
  match pushD zeroPage [104, 105] with
  | .ok q _ => q
  | _ => zeroPage

theorem push_get_payload_fidelity_witness :
    getD pushedPage 0 = GetResult.msg [104, 105] ∧
    tryGetD pushedPage 0 = TryGetResult.got [104, 105] :=
  push_get_payload_fidelity zeroPage pushedPage [104, 105] [0] (by rfl)

/-- A page whose last slot (index N - 1 = 65534) holds the terminator
sentinel u32::MAX, as a byte-exhausting push with count 65534 leaves it. -/
def termAtLastSlotPage : DataPage :=
  { zeroPage with idxMap := upd (fun _ => 0) 65534 U32MAX }

/-- C4: a reader that observes the terminator at slot c = N - 1 = 65534 does
NOT stay within the 65535-entry slot table: both try_get and get store to
`idx_map_with_salt[65535]`, one past the end of the array, and panic, instead
of skipping the publish and returning EndOfDataPage as the claim states.
(The claim is right about the intended behavior - the entry guard refuses
c >= N and the cascade is meant to stop at the table's end - but the code
indexes `count.saturating_add(1)` without the `c + 1 < N` bound.) -/
theorem terminator_at_last_slot_panics :
    tryGetD termAtLastSlotPage 65534 = TryGetResult.panic ∧
    getD termAtLastSlotPage 65534 = GetResult.panic := ⟨rfl, rfl⟩

/-- DataPage::push returned Ok. -/
def isPushOk : PushResult → Bool
  | .ok _ _ => true
  | _ => false

/-- DataPage::push returned Err(DataPageFull). -/
def isPushFull : PushResult → Bool
  | .full _ _ => true
  | _ => false

/-- A page state with the packed cell encoding write_idx = 2^32 - 4 and
count = 2 (reachable, e.g., by two pushes of combined reserved length
2^32 - 4 that both returned DataPageFull by byte exhaustion). -/
def highOffsetPage : DataPage := { zeroPage with cwi := (U32 - 4) * U32 + 2 }

/-- An 8-byte message. -/
def msg8 : List Nat := [0, 1, 2, 3, 4, 5, 6, 7]

/-- C6 counterexample: on `highOffsetPage`, pushing an 8-byte message has
count = 2 < N and true offset sum write_idx + F = 2^32 + 8 >= B, so the claim
says push returns Err(DataPageFull) (after publishing a terminator); the code
computes the fullness comparison in wrapping u32 arithmetic, gets 8 < B,
proceeds, and panics slicing `buf` at offset 2^32 - 4: push returns neither
Ok nor Err(DataPageFull). -/
theorem push_fullness_wrap_counterexample :
    pushD highOffsetPage msg8 = PushResult.panic ∧
    isPushOk (pushD highOffsetPage msg8) = false ∧
    isPushFull (pushD highOffsetPage msg8) = false ∧
    countOfCwi highOffsetPage.cwi < MAX_MESSAGES_PER_PAGE ∧
    MAX_BYTES_PER_PAGE ≤ wIdxOfCwi highOffsetPage.cwi + (msg8.length + 4) := by
  refine ⟨rfl, rfl, rfl, by decide, by decide⟩

/-- The three-way result characterization of DataPage::push in exact
arithmetic: slot exhaustion returns DataPageFull with no slot-cell store and
no wake; byte exhaustion stores u32::MAX into slot_table[count] and wakes that
cell before returning DataPageFull; otherwise push returns Ok waking
slot_table[count]. -/
def PushCharacterization (p : DataPage) (d : List Nat) : Prop :=
  (MAX_MESSAGES_PER_PAGE ≤ countOfCwi p.cwi →
    pushD p d = PushResult.full { p with cwi := cwiStep p.cwi ((d.length + 4) % U32) } []) ∧
  (countOfCwi p.cwi < MAX_MESSAGES_PER_PAGE →
    MAX_BYTES_PER_PAGE ≤ wIdxOfCwi p.cwi + (d.length + 4) →
    pushD p d = PushResult.full
      { p with cwi := cwiStep p.cwi ((d.length + 4) % U32),
               idxMap := upd p.idxMap (countOfCwi p.cwi) U32MAX } [countOfCwi p.cwi]) ∧
  (countOfCwi p.cwi < MAX_MESSAGES_PER_PAGE →
    wIdxOfCwi p.cwi + (d.length + 4) < MAX_BYTES_PER_PAGE →
    isPushOk (pushD p d) = true)

/-- C6 amended: provided the byte-offset arithmetic does not overflow u32
(d.length + 4 < 2^32 and write_idx + d.length + 4 < 2^32 - the regime the
claim implicitly assumes), push returns Err(DataPageFull) exactly under the
claimed conditions with the claimed slot-cell stores and wakes, and Ok in all
other cases. -/
theorem push_fullness_exact (p : DataPage) (d : List Nat)
    (hF : d.length + 4 < U32)
    (hw : wIdxOfCwi p.cwi + (d.length + 4) < U32) :
    PushCharacterization p d := by
  have hFid : (d.length + 4) % U32 = d.length + 4 := Nat.mod_eq_of_lt hF
  have hsum : (wIdxOfCwi p.cwi + (d.length + 4) % U32) % U32
      = wIdxOfCwi p.cwi + (d.length + 4) := by
    rw [hFid]; exact Nat.mod_eq_of_lt hw
  refine ⟨fun h1 => ?_, fun h1 h2 => ?_, fun h1 h2 => ?_⟩
  · unfold pushD
    rw [if_pos h1]
  · unfold pushD
    rw [if_neg (by omega), if_pos (by rw [hsum]; exact h2)]
  · unfold pushD
    rw [if_neg (by omega), if_neg (by rw [hsum]; omega), if_pos (by omega)]
    rfl

theorem push_fullness_exact_witness : PushCharacterization zeroPage [42] :=
  push_fullness_exact zeroPage [42] (by decide) (by decide)

/-- C7 counterexample: two successive reservations of u32::MAX bytes each
(push with d.length = 2^32 - 5) leave a decoded byte offset that DECREASED -
the packed fetch-add wrapped the write_idx half modulo 2^32.  Saturating
arithmetic would have left it pinned at u32::MAX. -/
theorem offset_reservation_wraps :
    wIdxOfCwi (cwiStep (cwiStep 0 U32MAX) U32MAX) < wIdxOfCwi (cwiStep 0 U32MAX) ∧
    wIdxOfCwi (cwiStep (cwiStep 0 U32MAX) U32MAX) ≠ U32MAX := by decide

/-- The packed cell after a sequence of push reservations of the given u32
values, starting from a zeroed page. -/
def reserveSeq (vs : List Nat) : Nat := vs.foldl cwiStep 0

theorem foldl_cwiStep (vs : List Nat) (s : Nat) (hs : s < U64) :
    vs.foldl cwiStep s = (s + U32 * (vs.map (fun v => v % U32)).sum + vs.length) % U64 := by
  induction vs generalizing s with
  | nil => simpa using (Nat.mod_eq_of_lt hs).symm
  | cons v rest ih =>
    rw [List.foldl_cons, ih (cwiStep s v) (by unfold cwiStep; exact Nat.mod_lt _ (by decide))]
    unfold cwiStep
    simp only [List.map_cons, List.sum_cons, List.length_cons]
    set W := (List.map (fun v => v % U32) rest).sum with hW
    set L := rest.length with hL
    simp only [U32, U64]
    omega

/-- C7 amended: the reservation arithmetic is modular, not saturating.  After
any sequence of fewer than 2^32 push reservations from a zeroed page, the
decoded write_idx is the SUM OF THE RESERVED LENGTHS MODULO 2^32 (so it wraps
exactly when the total reaches 2^32) and the decoded count is the number of
reservations. -/
theorem reservation_modular (vs : List Nat) (h : vs.length < U32) :
    wIdxOfCwi (reserveSeq vs) = (vs.map (fun v => v % U32)).sum % U32 ∧
    countOfCwi (reserveSeq vs) = vs.length := by
  unfold reserveSeq
  rw [foldl_cwiStep vs 0 (by decide)]
  unfold wIdxOfCwi countOfCwi
  set W := (vs.map (fun v => v % U32)).sum with hW
  simp only [U32, U64] at *
  constructor
  · omega
  · omega

theorem reservation_modular_witness :
    wIdxOfCwi (reserveSeq [6, 10]) = ([6, 10].map (fun v => v % U32)).sum % U32 ∧
    countOfCwi (reserveSeq [6, 10]) = [6, 10].length :=
  reservation_modular [6, 10] (by decide)

/-- lib.rs DataPage::push binds `let (count, write_idx) = fetch_add(..)`, but
fetch_add returns the tuple `(write_idx, count)`: the names are swapped.  This
returns the pair (count, write_idx) as lib.rs push sees them. -/
def pushLibReservation (p : DataPage) (d : List Nat) : Nat × Nat :=
  let r := fetchAddLib p.cwi ((d.length + 4) % U32)
  (r.2.1, r.2.2)

/-- The packed cell after one push of a 21-byte message on a fresh page
(reserved length F = 25). -/
def libPageAfterOne : DataPage := { zeroPage with cwi := cwiStep 0 25 }

/-- A 21-byte message. -/
def msg21 : List Nat := List.replicate 21 0

/-- C3: in lib.rs the count half of the prior packed value is decoded as
`(prev & WRITE_IDX_MASK) as u32`, which truncates a multiple of 2^32 and is 0
for every prior value, and push moreover binds the returned pair in swapped
order.  Concretely, for the second push on a fresh page the low 32 bits of
the prior packed value are 1, but lib.rs's fetch_add decodes count = 0 and
lib.rs push's `count` variable receives the byte offset 25.  (datapage.rs
decodes count from the low 32 bits, as the claim states.) -/
theorem lib_count_decode_is_zero :
    countOfCwiLib libPageAfterOne.cwi = 0 ∧
    countOfCwi libPageAfterOne.cwi = 1 ∧
    (pushLibReservation libPageAfterOne msg21).1 = 25 ∧
    (pushLibReservation libPageAfterOne msg21).1 ≠ 1 := by decide

/-- manager.rs: DATAPAGE_FILE_STEM. -/
def DATAPAGE_FILE_STEM : String := ".dp.data.maxi"

/-- A directory entry as the manager's directory scans see it: the file stem,
and the numeric value of the extension when `parse::<usize>()` succeeds
(`none` for a missing or non-numeric extension). -/
structure DirEntry where
  stem : String
  ext : Option Nat
deriving DecidableEq

/-- manager.rs DataPagesManager: the page_count counter, the retention bound
max_datapages, the VecDeque ring of mapped pages (front first; a page is
identified by the sequence number it was created under) and the set of page
files on disk. -/
structure ManagerM where
  pageCount : Nat
  maxPages : Nat
  ring : List Nat
  files : List Nat
deriving DecidableEq

/-- manager.rs load_total_page_count: the number of entries whose file stem
equals the page stem. -/
def loadTotalPageCount (entries : List DirEntry) : Nat :=
  (entries.filter (fun e => e.stem = DATAPAGE_FILE_STEM)).length

/-- manager.rs load_max_page: the largest numeric extension among the
stem-matching entries, or 0 when there is none. -/
def loadMaxPage (entries : List DirEntry) : Nat :=
  ((entries.filter (fun e => e.stem = DATAPAGE_FILE_STEM)).filterMap DirEntry.ext).foldl max 0

/-- Record a page file creation (MmapCell::new_named creates the file when it
is missing and maps the existing one otherwise). -/
def addFile (files : List Nat) (s : Nat) : List Nat :=
  if s ∈ files then files else files ++ [s]

/-- manager.rs DataPagesManager::new: map the sequences
`max_page.saturating_sub(total) .. max_page + 1` into the ring, initialize
page_count := total (the file count) and max_pages := usize::MAX. -/
def managerNew (entries : List DirEntry) : ManagerM :=
  let total := loadTotalPageCount entries
  let mx := loadMaxPage entries
  let lo := mx - total
  let seqs := List.range' lo (mx + 1 - lo)
  { pageCount := total,
    maxPages := USIZE_MAX,
    ring := seqs,
    files := seqs.foldl addFile
      ((entries.filter (fun e => e.stem = DATAPAGE_FILE_STEM)).filterMap DirEntry.ext) }

/-- manager.rs set_max_datapages. -/
def setMaxDatapages (m : ManagerM) (v : Nat) : ManagerM := { m with maxPages := v }

/-- Result of manager.rs get_or_create_datapage: the manager state left
behind and the returned (seq, page); `ioErr` is a propagated remove_file
error (`page_count` has already been advanced by then); `panic` is an
out-of-bounds VecDeque index or a modulo by zero. -/
inductive GocResult
  | ok (m : ManagerM) (seq : Nat) (pid : Nat)
  | ioErr (m : ManagerM)
  | panic
deriving DecidableEq

/-- manager.rs get_or_create_datapage: on `num > page_count`, advance
page_count, delete file `page_count - max_pages` and pop the ring head when
`page_count >= max_pages`, push the new page at the ring tail, and return
`(page_count, ring[page_count % max_pages])` - a positional VecDeque index.
Otherwise clamp `num` to `page_count - max_pages` from below and return
`(num, ring[num % max_pages])`. -/
def getOrCreateM (m : ManagerM) (num : Nat) : GocResult :=
  if m.pageCount < num then
    let dpc := (m.pageCount + 1) % U64
    if m.maxPages ≤ dpc then
      if (dpc - m.maxPages) ∈ m.files then
        let files1 := m.files.erase (dpc - m.maxPages)
        let ring1 := m.ring.tail
        let ring2 := ring1 ++ [dpc]
        let files2 := addFile files1 dpc
        if m.maxPages ≠ 0 ∧ dpc % m.maxPages < ring2.length then
          .ok { pageCount := dpc, maxPages := m.maxPages, ring := ring2, files := files2 }
            dpc (ring2.getD (dpc % m.maxPages) 0)
        else .panic
      else .ioErr { m with pageCount := dpc }
    else
      let ring2 := m.ring ++ [dpc]
      let files2 := addFile m.files dpc
      if m.maxPages ≠ 0 ∧ dpc % m.maxPages < ring2.length then
        .ok { pageCount := dpc, maxPages := m.maxPages, ring := ring2, files := files2 }
          dpc (ring2.getD (dpc % m.maxPages) 0)
      else .panic
  else
    let dp := max num (m.pageCount - m.maxPages)
    if m.maxPages ≠ 0 ∧ dp % m.maxPages < m.ring.length then
      .ok m dp (m.ring.getD (dp % m.maxPages) 0)
    else .panic

/-- The page files 0, 1, 2 of a directory previously filled by three pages. -/
def entries012 : List DirEntry :=
  [⟨DATAPAGE_FILE_STEM, some 0⟩, ⟨DATAPAGE_FILE_STEM, some 1⟩, ⟨DATAPAGE_FILE_STEM, some 2⟩]

/-- C2: once eviction is active, the create path returns the WRONG page.
Reachable state: a manager over a directory with page files 0, 1, 2
(page_count = 3, ring = [0, 1, 2]) and max_pages set to 3.
`get_or_create_datapage(4)` creates page 4 (sequence page_count + 1), deletes
file 4 - 3 = 1, pops the ring head and appends page 4 at the tail - all as
the claim states - but then returns `ring[4 % 3]`, the VecDeque element at
POSITION 1, which is the page created under sequence 2, not the newly created
tail page 4.  (The positional index is a slip left over from the fixed-array
ring of lib.rs, where position seq % MAX_PAGES was the page's home; the
upstream spec and the sibling get_last_datapage - which uses `.back()` -
show the tail page is the intent.) -/
theorem create_returns_ring_head_not_tail :
    getOrCreateM (setMaxDatapages (managerNew entries012) 3) 4 =
      GocResult.ok ⟨4, 3, [1, 2, 4], [0, 2, 4]⟩ 4 2 ∧
    [1, 2, 4].getLast? = some 4 ∧
    (2 : Nat) ≠ 4 := by decide

/-- The page files 2 and 3: a directory whose older files 0 and 1 were
already reclaimed. -/
def entries23 : List DirEntry :=
  [⟨DATAPAGE_FILE_STEM, some 2⟩, ⟨DATAPAGE_FILE_STEM, some 3⟩]

/-- C5 counterexample: for a directory holding exactly the page files 2 and 3
(count = 2, max_seq = 3), new() maps the three sequences [1, 3] into the ring
- including page 1, whose file it re-creates - rather than the claimed
[max_seq - count + 1, max_seq] = [2, 3], and it initializes page_count to the
file count 2, not to max_seq = 3. -/
theorem manager_new_counterexample :
    (managerNew entries23).ring = [1, 2, 3] ∧
    (managerNew entries23).pageCount = 2 ∧
    loadMaxPage entries23 = 3 ∧
    ¬ ((managerNew entries23).ring = [2, 3] ∧
       (managerNew entries23).pageCount = loadMaxPage entries23) := by decide

/-- C5 amended: new(directory) enumerates the files named <stem>.<decimal>,
maps into the ring exactly the pages with sequences in
[max_seq - count, max_seq] (saturating at 0: count + 1 pages when
count <= max_seq, and [0, 0] when the directory has no matching files), and
initializes page_count to count - the NUMBER of matching files - and
max_pages to usize::MAX. -/
theorem manager_new_characterization (es : List DirEntry) :
    (managerNew es).pageCount = loadTotalPageCount es ∧
    (managerNew es).maxPages = USIZE_MAX ∧
    ∀ s, s ∈ (managerNew es).ring ↔
      (loadMaxPage es - loadTotalPageCount es ≤ s ∧ s ≤ loadMaxPage es) := by
  refine ⟨rfl, rfl, fun s => ?_⟩
  show s ∈ List.range' (loadMaxPage es - loadTotalPageCount es)
      (loadMaxPage es + 1 - (loadMaxPage es - loadTotalPageCount es)) ↔ _
  rw [List.mem_range'_1]
  omega

/-- The runtime borrow flag of a RefCell. -/
inductive BorrowState
  | free
  | shared (n : Nat)
  | exclusive

/-- RefCell::borrow: panics (none) when an exclusive borrow is outstanding. -/
def tryBorrow : BorrowState → Option BorrowState
  | .free => some (.shared 1)
  | .shared n => some (.shared (n + 1))
  | .exclusive => none

/-- RefCell::borrow_mut (also RefCell::replace): panics (none) unless no
borrow at all is outstanding. -/
def tryBorrowMut : BorrowState → Option BorrowState
  | .free => some .exclusive
  | .shared _ => none
  | .exclusive => none

/-- Write one page of the page-file store. -/
def storePage (pages : Nat → DataPage) (i : Nat) (p : DataPage) : Nat → DataPage :=
  fun j => if j = i then p else pages j

/-- lib.rs DataPagesManager: page_count and the fixed three-entry ring
(`[Arc<MmapCell<DataPage>>; MAX_PAGES]`, read at index i % 3, modelled as a
function of that index), plus the page files on disk. -/
structure ManagerL where
  pageCount : Nat
  ring : Nat → Nat
  files : List Nat

/-- lib.rs get_or_create_datapage.  On `num >= page_count`: fetch_add on
page_count (prior value `old`), create page file `old` (a zeroed page when
the file is missing, the existing content otherwise), install it at ring slot
`old % MAX_PAGES`, delete file `old.saturating_sub(MAX_PAGES)` (`none` result
and no ring/file change visible when that file is missing - the error
propagates after page_count was already advanced and the ring updated), and
return `(old, ring[old % MAX_PAGES])`.  Otherwise clamp `num` below by
`page_count.saturating_sub(MAX_PAGES)` and return that slot. -/
def getOrCreateL (m : ManagerL) (pages : Nat → DataPage) (num : Nat) :
    Option (Nat × Nat) × ManagerL × (Nat → DataPage) :=
  if m.pageCount ≤ num then
    let old := m.pageCount
    let pc1 := (old + 1) % U64
    let pages1 := if old ∈ m.files then pages else storePage pages old zeroPage
    let files1 := addFile m.files old
    let ring1 := fun j => if j % MAX_PAGES_LIB = old % MAX_PAGES_LIB then old else m.ring j
    if (old - MAX_PAGES_LIB) ∈ files1 then
      (some (old, ring1 (old % MAX_PAGES_LIB)),
       { pageCount := pc1, ring := ring1, files := files1.erase (old - MAX_PAGES_LIB) },
       pages1)
    else
      (none, { pageCount := pc1, ring := ring1, files := files1 }, pages1)
  else
    let dp := if num < m.pageCount - MAX_PAGES_LIB then m.pageCount - MAX_PAGES_LIB else num
    (some (dp, m.ring (dp % MAX_PAGES_LIB)), m, pages)

/-- lib.rs Receiver state: the group id, the anon_count cell, the cached page
sequence (the datapage_count RefCell) and the cached page (the datapage
RefCell, identified by page id). -/
structure ReceiverState where
  group : Nat
  anonCount : Nat
  cachedSeq : Nat
  cachedPage : Nat

/-- The state a Receiver::pop call runs against: the content of all page
files, the manager, and the receiver's own cells. -/
structure WorldL where
  pages : Nat → DataPage
  mgr : ManagerL
  recv : ReceiverState

/-- Outcome of one iteration of Receiver::pop's loop body. -/
inductive PopOutcome
  | msg (b : List Nat)
  | ioErr
  | retry
  | blocked
  | panicIndex
  | panicBorrow
deriving DecidableEq

/-- The group counter of the receiver's cached page before the fetch-add. -/
def priorCount (w : WorldL) : Nat := (w.pages w.recv.cachedPage).groups w.recv.group

/-- The receiver's cached page after the group-counter fetch-add. -/
def bumpGroupPage (w : WorldL) : DataPage :=
  { w.pages w.recv.cachedPage with
    groups := upd (w.pages w.recv.cachedPage).groups w.recv.group ((priorCount w + 1) % U32) }

/-- One iteration of lib.rs Receiver<Grouped>::pop, every RefCell operation
modelled in source order on explicit borrow flags.  The shared borrow of
`self.datapage` taken at the top of the iteration is still outstanding at the
final `self.datapage.replace(..)` - the later
`let (dp_count, datapage) = self.manager.get_or_create_datapage(..)` only
shadows the guard binding, it does not drop the guard - so the final
borrow_mut is decided against that live shared flag. -/
def groupedPopIter (w : WorldL) : PopOutcome × WorldL :=
  -- let datapage = self.datapage.borrow();
  match tryBorrow BorrowState.free with
  | none => (.panicBorrow, w)
  | some fDatapage =>
    -- datapage.get().receiver_group_count[self.group].fetch_add(1, Relaxed)
    match incrementGroupCount (w.pages w.recv.cachedPage) w.recv.group 1 with
    | none => (.panicIndex, w)
    | some (pg1, c) =>
      let w1 : WorldL := { w with pages := storePage w.pages w.recv.cachedPage pg1 }
      -- match datapage.get().get(count)
      match getL pg1 c with
      | .msg b => (.msg b, w1)
      | .blocked => (.blocked, w1)
      | .panic => (.panicIndex, w1)
      | .endOfPage pg2 _ =>
        let w2 : WorldL := { w1 with pages := storePage w1.pages w.recv.cachedPage pg2 }
        -- self.manager.get_or_create_datapage(self.datapage_count.borrow().wrapping_add(1))?
        -- (the datapage_count.borrow() here is a temporary: taken and dropped
        -- within the statement)
        match getOrCreateL w2.mgr w2.pages ((w.recv.cachedSeq + 1) % U64) with
        | (none, mgr1, pages1) => (.ioErr, { w2 with mgr := mgr1, pages := pages1 })
        | (some (seq1, pid1), mgr1, pages1) =>
          -- *self.datapage_count.borrow_mut() = dp_count;  (flag free: ok)
          match tryBorrowMut BorrowState.free with
          | none => (.panicBorrow, { w2 with mgr := mgr1, pages := pages1 })
          | some _ =>
            let w3 : WorldL := { pages := pages1, mgr := mgr1,
                                 recv := { w.recv with cachedSeq := seq1 } }
            -- self.datapage.replace(datapage): borrow_mut while the shared
            -- guard from the top of the iteration is still outstanding
            match tryBorrowMut fDatapage with
            | none => (.panicBorrow, w3)
            | some _ =>
              (.retry, { w3 with recv := { w3.recv with cachedPage := pid1 } })

/-- One iteration of lib.rs Receiver<Anonymous>::pop.  After the shared
borrow of `self.datapage`, the body takes a shared borrow of
`self.anon_count` into the binding `count` and then calls
`self.anon_count.borrow_mut()` while that binding is still live; everything
past that point (the page read, the counter reset and the page advance) is
unreachable. -/
def anonPopIter (w : WorldL) : PopOutcome × WorldL :=
  -- let datapage = self.datapage.borrow();
  match tryBorrow BorrowState.free with
  | none => (.panicBorrow, w)
  | some _ =>
    -- let count = self.anon_count.borrow();
    match tryBorrow BorrowState.free with
    | none => (.panicBorrow, w)
    | some fAnon =>
      -- *self.anon_count.borrow_mut() += 1;  (the `count` guard is live)
      match tryBorrowMut fAnon with
      | none => (.panicBorrow, w)
      | some _ =>
        -- unreachable: fAnon is a live shared borrow, so borrow_mut above
        -- always takes the `none` arm; the rest of the body never runs
        (.retry, w)

/-- C10: every call of Receiver<Anonymous>::pop takes a mutable borrow of
anon_count while its own shared borrow of the same cell is live, and
therefore panics with a RefCell BorrowMutError before reading any message,
for every receiver state, manager state and page content; no state is
changed. -/
theorem anonymous_pop_always_panics (w : WorldL) :
    anonPopIter w = (PopOutcome.panicBorrow, w) := rfl

/-- C9: increment_group_count and the grouped pop index the 64-entry
receiver_group_count array with the caller-supplied group id and no bounds
check: the operation is total exactly for group < 64, and a receiver
constructed with group >= 64 hits the out-of-bounds index panic on its first
pop, right after the fetch-add is attempted. -/
theorem group_bound_unchecked :
    (∀ p g v, MAX_RECEIVER_GROUPS ≤ g → incrementGroupCount p g v = none) ∧
    (∀ p g v, g < MAX_RECEIVER_GROUPS → (incrementGroupCount p g v).isSome = true) ∧
    (∀ w : WorldL, MAX_RECEIVER_GROUPS ≤ w.recv.group →
      (groupedPopIter w).1 = PopOutcome.panicIndex) := by
  refine ⟨fun p g v h => ?_, fun p g v h => ?_, fun w h => ?_⟩
  · unfold incrementGroupCount
    rw [if_neg (by omega)]
  · unfold incrementGroupCount
    rw [if_pos h]
    rfl
  · have hnone : incrementGroupCount (w.pages w.recv.cachedPage) w.recv.group 1 = none := by
      unfold incrementGroupCount
      rw [if_neg (by omega)]
    unfold groupedPopIter
    rw [hnone]
    rfl

/-- A world whose receiver was constructed with group id 64. -/
def world64 : WorldL :=
  { pages := fun _ => zeroPage,
    mgr := { pageCount := 3, ring := fun j => j % 3, files := [0, 1, 2] },
    recv := { group := 64, anonCount := 0, cachedSeq := 0, cachedPage := 0 } }

theorem group_bound_unchecked_witness :
    incrementGroupCount zeroPage 64 1 = none ∧
    (groupedPopIter world64).1 = PopOutcome.panicIndex :=
  ⟨group_bound_unchecked.1 zeroPage 64 1 (by decide),
   group_bound_unchecked.2.2 world64 (by decide)⟩

/-- A page whose slot 0 holds the terminator sentinel. -/
def termFirstSlotPage : DataPage := { zeroPage with idxMap := upd (fun _ => 0) 0 U32MAX }

/-- A fresh-manager world whose receiver (group 0, cached sequence 0) holds a
page, id 7, whose first slot carries the terminator: its pop reaches the
end-of-page path. -/
def worldEnd : WorldL :=
  { pages := fun j => if j = 7 then termFirstSlotPage else zeroPage,
    mgr := { pageCount := 3, ring := fun j => j % 3, files := [0, 1, 2] },
    recv := { group := 0, anonCount := 0, cachedSeq := 0, cachedPage := 7 } }

/-- C8 counterexample: on the end-of-page path the grouped pop does request
`get_or_create_datapage(cached_seq + 1)` and does update its cached sequence
to the sequence the manager returned (1 here) - but it then panics with a
RefCell BorrowMutError at `self.datapage.replace(..)` (the shared borrow from
the top of the iteration is still live), so the iteration never reaches the
retry the claim describes, and the cached page is never replaced. -/
theorem grouped_pop_advance_counterexample :
    (groupedPopIter worldEnd).1 = PopOutcome.panicBorrow ∧
    (groupedPopIter worldEnd).1 ≠ PopOutcome.retry ∧
    (groupedPopIter worldEnd).2.recv.cachedSeq = 1 ∧
    (groupedPopIter worldEnd).2.recv.cachedPage = 7 := by
  refine ⟨rfl, by decide, rfl, rfl⟩

/-- C8 amended: Receiver<Grouped>::pop obtains c as the value of the per-page
group counter prior to its increment and returns the slice from page.get(c)
on success; on EndOfDataPage it requests get_or_create_datapage(cached_seq+1)
from the manager and updates its cached sequence number to the sequence the
manager RETURNED (not the one requested) - but it then panics with a RefCell
BorrowMutError when replacing the cached page (the shared borrow taken at the
top of the iteration is still live), so the retry is never reached and the
cached page is left unchanged. -/
theorem grouped_pop_characterization (w : WorldL)
    (hg : w.recv.group < MAX_RECEIVER_GROUPS) :
    (∀ b, getL (bumpGroupPage w) (priorCount w) = GetResult.msg b →
      (groupedPopIter w).1 = PopOutcome.msg b ∧
      ((groupedPopIter w).2.pages w.recv.cachedPage).groups w.recv.group
        = (priorCount w + 1) % U32) ∧
    (∀ p2 wk seq1 pid1 mgr1 pages1,
      getL (bumpGroupPage w) (priorCount w) = GetResult.endOfPage p2 wk →
      getOrCreateL w.mgr
          (storePage (storePage w.pages w.recv.cachedPage (bumpGroupPage w))
            w.recv.cachedPage p2)
          ((w.recv.cachedSeq + 1) % U64) = (some (seq1, pid1), mgr1, pages1) →
      (groupedPopIter w).1 = PopOutcome.panicBorrow ∧
      (groupedPopIter w).2.recv.cachedSeq = seq1 ∧
      (groupedPopIter w).2.recv.cachedPage = w.recv.cachedPage) := by
  have hinc : incrementGroupCount (w.pages w.recv.cachedPage) w.recv.group 1
      = some (bumpGroupPage w, priorCount w) := by
    unfold incrementGroupCount bumpGroupPage priorCount
    rw [if_pos hg]
  constructor
  · intro b hb
    unfold groupedPopIter
    rw [hinc]
    dsimp only
    rw [hb]
    refine ⟨rfl, ?_⟩
    show (storePage w.pages w.recv.cachedPage (bumpGroupPage w) w.recv.cachedPage).groups
        w.recv.group = (priorCount w + 1) % U32
    simp [storePage, bumpGroupPage, upd]
  · intro p2 wk seq1 pid1 mgr1 pages1 hb hgoc
    unfold groupedPopIter
    rw [hinc]
    dsimp only
    rw [hb]
    dsimp only
    rw [hgoc]
    exact ⟨rfl, rfl, rfl⟩

/-- A page whose slot 0 holds a published one-byte message: salted offset 1,
length prefix 1 at offset 0, payload byte 0 at offset 4. -/
def oneMsgPage : DataPage :=
  { zeroPage with idxMap := upd (fun _ => 0) 0 1, buf := upd (fun _ => 0) 0 1 }

/-- worldEnd's sibling whose cached page has a readable message at slot 0. -/
def worldMsg : WorldL :=
  { pages := fun j => if j = 7 then oneMsgPage else zeroPage,
    mgr := { pageCount := 3, ring := fun j => j % 3, files := [0, 1, 2] },
    recv := { group := 0, anonCount := 0, cachedSeq := 0, cachedPage := 7 } }

theorem grouped_pop_characterization_witness :
    (groupedPopIter worldMsg).1 = PopOutcome.msg [0] ∧
    ((groupedPopIter worldMsg).2.pages 7).groups 0 = 1 :=
  (grouped_pop_characterization worldMsg (by decide)).1 [0] (by rfl)
